import Mathlib

/-!
Shallow embedding of the lecture AI-processing lifecycle and the
enrollment progress aggregation of the ai-elearning-platform server.

Sources embedded:
- server/models/Lecture.js (lecture schema, pre-save hook)
- server/index.js lecture routes: createLecture (POST /), updateLecture
  (PUT /:id), publish (PUT /:id/publish), processing-status (GET),
  reprocess (POST /:id/reprocess)
- models/Enrollment.js (enrollment schema, updateProgress,
  addCompletedLecture)
- routes/enrollments.js: progress (PUT /:enrollmentId/progress) and
  rating (POST /:enrollmentId/rating)

Conventions: Mongo ObjectIds become Nat; absent optional strings become
the empty string where JS code relies on truthiness, Option elsewhere;
Date.now becomes an explicit `now : Nat` parameter; the external ML
service hand-off becomes an explicit Boolean outcome parameter
(true = the POST to process-lecture succeeded); JS Math.round over
nonnegative values becomes floor (q + 1/2) over rationals.
-/

/-- Content types of a lecture, from the contentType enum of the
lecture schema. -/
inductive ContentType
  | text
  | video
  | audio
  | aiGenerated
deriving DecidableEq, Repr

/-- AI processing status enum of the lecture schema. -/
inductive AIStatus
  | pending
  | processing
  | completed
  | failed
deriving DecidableEq, Repr

/-- Voice settings nested in aiProcessing (voice, speed, language). -/
structure VoiceSettings where
  voice : String
  speed : ℚ
  language : String
deriving DecidableEq, Repr

/-- Schema defaults for voiceSettings: female, 1.0, en. -/
def defaultVoiceSettings : VoiceSettings :=
  { voice := "female", speed := 1, language := "en" }

/-- The aiProcessing subdocument of a lecture. errorMessage is a plain
string, empty when unset, mirroring the schema where it is an optional
String and the routes assign it plain strings (including the empty
string on reprocess). -/
structure AIProcessing where
  status : AIStatus
  progress : Nat
  errorMessage : String
  processedAt : Option Nat
  voiceSettings : VoiceSettings
deriving DecidableEq, Repr

/-- The files subdocument (originalText, audioFile, videoFile,
thumbnail, subtitles). -/
structure FileRefs where
  originalText : Option String
  audioFile : Option String
  videoFile : Option String
  thumbnail : Option String
  subtitles : Option String
deriving DecidableEq, Repr

/-- The empty files object, written as files = \x7b\x7d in the routes. -/
def FileRefs.empty : FileRefs :=
  { originalText := none, audioFile := none, videoFile := none,
    thumbnail := none, subtitles := none }

/-- The cloudinaryUrls subdocument (audio, video, thumbnail). -/
structure CloudinaryUrls where
  audio : Option String
  video : Option String
  thumbnail : Option String
deriving DecidableEq, Repr

/-- The empty cloudinaryUrls object. -/
def CloudinaryUrls.empty : CloudinaryUrls :=
  { audio := none, video := none, thumbnail := none }

/-- A lecture document, from the lecture schema. textContent is the
empty string when absent, mirroring the JS truthiness checks on it. -/
structure Lecture where
  id : Nat
  title : String
  description : String
  course : Nat
  order : Nat
  contentType : ContentType
  textContent : String
  aiProcessing : AIProcessing
  files : FileRefs
  cloudinaryUrls : CloudinaryUrls
  isPublished : Bool
  publishedAt : Option Nat
deriving DecidableEq, Repr

/-- An HTTP error response: status code and message, as produced by
res.status(code).json with success false. -/
structure ErrResponse where
  status : Nat
  message : String
deriving DecidableEq, Repr

/-- Extract the ok value of an Except, with a default for the error
case. -/
def resultOr {ε α : Type} (r : Except ε α) (d : α) : α :=
  match r with
  | Except.ok a => a
  | Except.error _ => d

/-- Whether an Except is the ok constructor. -/
def exceptIsOk {ε α : Type} : Except ε α → Bool
  | Except.ok _ => true
  | Except.error _ => false

/-- The pre-save hook of the lecture schema: when isPublished was
modified, is now true and publishedAt is unset, set publishedAt to the
current time. Mongoose marks a path modified when it is assigned a
value different from the stored one, so modification is the disequality
of the field before and after. -/
def lectureSaveHook (now : Nat) (before after : Lecture) : Lecture :=
  if before.isPublished ≠ after.isPublished ∧ after.isPublished = true ∧
      after.publishedAt = none then
    { after with publishedAt := some now }
  else
    after

/-- PUT /api/lectures/:id/publish on a single lecture document: for
AI-generated content, publishing requires aiProcessing.status to be
completed; otherwise the isPublished flag is assigned and the document
saved (running the pre-save hook). -/
def publishLecture (now : Nat) (lecture : Lecture) (isPublished : Bool) :
    Except ErrResponse Lecture :=
  if isPublished = true ∧ lecture.contentType = ContentType.aiGenerated ∧
      lecture.aiProcessing.status ≠ AIStatus.completed then
    Except.error
      { status := 400,
        message := "Cannot publish AI-generated lecture until processing is complete" }
  else
    Except.ok (lectureSaveHook now lecture { lecture with isPublished := isPublished })

/-- PUT /api/lectures/:id/publish at the collection level: look up the
lecture by id (404 when missing), delegate to publishLecture, and on
success write the updated document back. An error response leaves the
collection untouched. -/
def publishRoute (now : Nat) (db : List Lecture) (id : Nat) (isPublished : Bool) :
    Except ErrResponse Lecture × List Lecture :=
  match db.find? (fun l => l.id == id) with
  | none => (Except.error { status := 404, message := "Lecture not found" }, db)
  | some lecture =>
    match publishLecture now lecture isPublished with
    | Except.error e => (Except.error e, db)
    | Except.ok l' => (Except.ok l', db.map (fun x => if x.id == id then l' else x))

/-- GET /api/lectures/:id/processing-status response payload. -/
structure ProcessingStatusView where
  status : AIStatus
  progress : Nat
  errorMessage : String
  processedAt : Option Nat
  voiceSettings : VoiceSettings
  cloudinaryUrls : CloudinaryUrls
deriving DecidableEq, Repr

/-- GET /api/lectures/:id/processing-status: a pure read of the
aiProcessing fields and cloudinaryUrls; the lecture is not modified. -/
def processingStatusRoute (lecture : Lecture) : ProcessingStatusView :=
  { status := lecture.aiProcessing.status,
    progress := lecture.aiProcessing.progress,
    errorMessage := lecture.aiProcessing.errorMessage,
    processedAt := lecture.aiProcessing.processedAt,
    voiceSettings := lecture.aiProcessing.voiceSettings,
    cloudinaryUrls := lecture.cloudinaryUrls }

/-- The reset step of POST /api/lectures/:id/reprocess: status back to
pending, progress 0, errorMessage cleared to the empty string, files
and cloudinaryUrls emptied. voiceSettings and processedAt are not
touched. -/
def reprocessReset (lecture : Lecture) : Lecture :=
  { lecture with
    aiProcessing := { lecture.aiProcessing with
      status := AIStatus.pending, progress := 0, errorMessage := "" },
    files := FileRefs.empty,
    cloudinaryUrls := CloudinaryUrls.empty }

/-- The hand-off attempt shared by the create, update and reprocess
routes of the restart flavour: on success the status becomes
processing; on failure it becomes failed and the given errorMessage is
stored. -/
def handoffStep (handoffOk : Bool) (failMessage : String) (lecture : Lecture) : Lecture :=
  if handoffOk then
    { lecture with aiProcessing := { lecture.aiProcessing with status := AIStatus.processing } }
  else
    { lecture with aiProcessing := { lecture.aiProcessing with
        status := AIStatus.failed, errorMessage := failMessage } }

/-- POST /api/lectures/:id/reprocess on a single lecture document.
Rejected only when contentType is not ai-generated or the stored
textContent is empty; the current aiProcessing.status is never
inspected. Otherwise: reset, save, attempt the hand-off, save again. -/
def reprocessLecture (lecture : Lecture) (handoffOk : Bool) :
    Except ErrResponse Lecture :=
  if lecture.contentType ≠ ContentType.aiGenerated then
    Except.error { status := 400, message := "Only AI-generated lectures can be reprocessed" }
  else if lecture.textContent = "" then
    Except.error { status := 400, message := "No text content available for processing" }
  else
    Except.ok (handoffStep handoffOk "Failed to restart AI processing" (reprocessReset lecture))

/-- The publish invariant of the spec: a published lecture is either
not ai-generated or has completed AI processing. -/
def publishInvariant (l : Lecture) : Prop :=
  l.isPublished = true →
    (l.contentType ≠ ContentType.aiGenerated ∨ l.aiProcessing.status = AIStatus.completed)

instance (l : Lecture) : Decidable (publishInvariant l) := by
  unfold publishInvariant
  infer_instance

/-- Request body for POST /api/lectures, after the express-validator
trim sanitizers have run (title, description and textContent arrive
trimmed). voiceSettings is the parsed JSON body field when present. -/
structure CreateLectureReq where
  courseId : Nat
  title : String
  description : String
  order : Nat
  contentType : ContentType
  textContent : String
  voiceSettings : Option VoiceSettings
deriving DecidableEq, Repr

/-- Request body for PUT /api/lectures/:id, same sanitization. -/
structure UpdateLectureReq where
  title : String
  description : String
  order : Nat
  contentType : ContentType
  textContent : String
  voiceSettings : Option VoiceSettings
deriving DecidableEq, Repr

/-- The validateLecture chain: title between 3 and 200 characters,
description at most 1000, order a positive integer, textContent at
most 10000 characters. contentType membership in the enum is enforced
by the ContentType type itself. -/
def validLectureReq (title description textContent : String) (order : Nat) : Prop :=
  3 ≤ title.length ∧ title.length ≤ 200 ∧ description.length ≤ 1000 ∧
  1 ≤ order ∧ textContent.length ≤ 10000

instance (t d x : String) (o : Nat) : Decidable (validLectureReq t d x o) := by
  unfold validLectureReq
  infer_instance

/-- POST /api/lectures. courseOwned is the outcome of the
Course.findOne lookup restricted to the requesting professor (the auth
layer itself is out of scope); handoffOk is the outcome of the POST to
the external ML service. On success the new lecture (with the hand-off
result already folded into its aiProcessing state, as both saves have
run) is returned together with the collection extended by it. -/
def createLecture (db : List Lecture) (newId : Nat) (req : CreateLectureReq)
    (courseOwned : Bool) (handoffOk : Bool) :
    Except ErrResponse (Lecture × List Lecture) :=
  if ¬ validLectureReq req.title req.description req.textContent req.order then
    Except.error { status := 400, message := "Validation errors" }
  else if courseOwned = false then
    Except.error { status := 404, message := "Course not found or access denied" }
  else if db.any (fun l => l.course == req.courseId && l.order == req.order) then
    Except.error
      { status := 400,
        message := "A lecture with this order already exists in the course" }
  else
    let isAiWithText := req.contentType = ContentType.aiGenerated ∧ req.textContent ≠ ""
    let lecture : Lecture :=
      { id := newId, title := req.title, description := req.description,
        course := req.courseId, order := req.order,
        contentType := req.contentType, textContent := req.textContent,
        aiProcessing :=
          { status := AIStatus.pending, progress := 0, errorMessage := "",
            processedAt := none,
            voiceSettings :=
              if isAiWithText then req.voiceSettings.getD defaultVoiceSettings
              else defaultVoiceSettings },
        files := FileRefs.empty, cloudinaryUrls := CloudinaryUrls.empty,
        isPublished := false, publishedAt := none }
    let lecture2 :=
      if isAiWithText then handoffStep handoffOk "Failed to start AI processing" lecture
      else lecture
    Except.ok (lecture2, db ++ [lecture2])

/-- The basic field assignments of PUT /api/lectures/:id: title,
description (kept when the request omits it), order and contentType
are written onto the document, in source order. -/
def updateLectureFields (req : UpdateLectureReq) (lecture : Lecture) : Lecture :=
  { lecture with
    title := req.title,
    description := if req.description ≠ "" then req.description else lecture.description,
    order := req.order,
    contentType := req.contentType }

/-- The textContent assignment of PUT /api/lectures/:id: written only
when the request carries a nonempty one. -/
def applyTextContent (req : UpdateLectureReq) (l1 : Lecture) : Lecture :=
  if req.textContent ≠ "" then { l1 with textContent := req.textContent } else l1

/-- The AI reset block of PUT /api/lectures/:id: a fresh pending
aiProcessing subdocument (voiceSettings from the request when present,
otherwise kept) and cleared files and cloudinaryUrls. -/
def resetAiProcessing (req : UpdateLectureReq) (l2 : Lecture) : Lecture :=
  { l2 with
    aiProcessing :=
      { status := AIStatus.pending, progress := 0, errorMessage := "",
        processedAt := none,
        voiceSettings := req.voiceSettings.getD l2.aiProcessing.voiceSettings },
    files := FileRefs.empty,
    cloudinaryUrls := CloudinaryUrls.empty }

/-- PUT /api/lectures/:id. Mirrors the source statement order: the
order-conflict query runs first; then title, description, order and
contentType are assigned onto the document; then textContent is
assigned when the request carries one; and only then is the AI reset
condition evaluated on the already mutated document (so the comparison
of request contentType against the document contentType is vacuous,
and the textContent comparison fires exactly when the request omits
textContent while the document has some). -/
def updateLecture (db : List Lecture) (id : Nat) (req : UpdateLectureReq)
    (isOwner : Bool) (handoffOk : Bool) :
    Except ErrResponse (Lecture × List Lecture) :=
  if ¬ validLectureReq req.title req.description req.textContent req.order then
    Except.error { status := 400, message := "Validation errors" }
  else
    match db.find? (fun l => l.id == id) with
    | none => Except.error { status := 404, message := "Lecture not found" }
    | some lecture =>
      if isOwner = false then
        Except.error
          { status := 403,
            message := "Access denied. You can only update your own course lectures." }
      else if req.order ≠ lecture.order ∧
          db.any (fun l => l.course == lecture.course && l.order == req.order &&
            l.id != lecture.id) then
        Except.error
          { status := 400,
            message := "A lecture with this order already exists in the course" }
      else
        let l2 := applyTextContent req (updateLectureFields req lecture)
        if req.contentType = ContentType.aiGenerated ∧
            (l2.textContent ≠ req.textContent ∨ req.contentType ≠ l2.contentType) then
          let l4 := handoffStep handoffOk "Failed to restart AI processing"
            (resetAiProcessing req l2)
          Except.ok (l4, db.map (fun x => if x.id == id then l4 else x))
        else
          Except.ok (l2, db.map (fun x => if x.id == id then l2 else x))

/-- JS Math.round of the quotient a / b of nonnegative integers with
b positive, computed exactly in integer arithmetic: Math.round rounds
half toward positive infinity, so round (a / b) = floor (a / b + 1/2)
= (2a + b) div (2b). The lemma jsRoundDiv_eq_floor below relates this
to the floor of the exact rational. -/
def jsRoundDiv (a b : Nat) : Nat :=
  (2 * a + b) / (2 * b)

/-- One entry of progress.completedLectures. -/
structure CompletedLecture where
  lecture : Nat
  completedAt : Nat
  watchTime : Nat
  completionPercentage : Nat
deriving DecidableEq, Repr

/-- Enrollment status enum. -/
inductive EnrollmentStatus
  | active
  | completed
  | dropped
  | suspended
deriving DecidableEq, Repr

/-- The progress subdocument of an enrollment. -/
structure Progress where
  completedLectures : List CompletedLecture
  overallProgress : Nat
  lastAccessedLecture : Option Nat
  lastAccessedAt : Nat
  totalWatchTime : Nat
deriving DecidableEq, Repr

/-- The rating subdocument of an enrollment. score 0 stands for unset,
mirroring the JS truthiness test on enrollment.rating.score (a stored
score is between 1 and 5 by validation, hence truthy exactly when
set). -/
structure Rating where
  score : Nat
  review : String
  reviewedAt : Option Nat
deriving DecidableEq, Repr

/-- An enrollment document. -/
structure Enrollment where
  id : Nat
  student : Nat
  course : Nat
  status : EnrollmentStatus
  progress : Progress
  completedAt : Option Nat
  rating : Rating
deriving DecidableEq, Repr

/-- enrollmentSchema.methods.updateProgress: recompute overallProgress
as Math.round of completed / total * 100 when the course has lectures,
and flip an active enrollment to completed (stamping completedAt) when
the recomputed progress reaches 100. With no lectures in the course,
nothing changes. courseLectures is course.lectures of the populated
course document. -/
def Enrollment.updateProgressMethod (now : Nat) (courseLectures : List Nat)
    (e : Enrollment) : Enrollment :=
  let totalLectures := courseLectures.length
  let completedCount := e.progress.completedLectures.length
  if 0 < totalLectures then
    let newOverall : Nat := jsRoundDiv (completedCount * 100) totalLectures
    let e1 := { e with progress := { e.progress with overallProgress := newOverall } }
    if 100 ≤ e1.progress.overallProgress ∧ e1.status = EnrollmentStatus.active then
      { e1 with status := EnrollmentStatus.completed, completedAt := some now }
    else
      e1
  else
    e

/-- The findIndex-then-update-or-push body of addCompletedLecture:
the first entry carrying the given lecture id is updated in place with
the pointwise maxima; when none exists a fresh entry is appended. -/
def upsertCompleted (lectureId now watchTime completionPercentage : Nat) :
    List CompletedLecture → List CompletedLecture
  | [] =>
    [{ lecture := lectureId, completedAt := now, watchTime := watchTime,
       completionPercentage := completionPercentage }]
  | cl :: rest =>
    if cl.lecture = lectureId then
      { cl with
        watchTime := max cl.watchTime watchTime,
        completionPercentage := max cl.completionPercentage completionPercentage } :: rest
    else
      cl :: upsertCompleted lectureId now watchTime completionPercentage rest

/-- enrollmentSchema.methods.addCompletedLecture: upsert the completion
record, always add watchTime to totalWatchTime, stamp
lastAccessedLecture and lastAccessedAt, then run updateProgress. -/
def Enrollment.addCompletedLecture (now : Nat) (courseLectures : List Nat)
    (e : Enrollment) (lectureId watchTime completionPercentage : Nat) : Enrollment :=
  let p := e.progress
  let p1 := { p with
    completedLectures := upsertCompleted lectureId now watchTime completionPercentage
      p.completedLectures,
    totalWatchTime := p.totalWatchTime + watchTime,
    lastAccessedLecture := some lectureId,
    lastAccessedAt := now }
  Enrollment.updateProgressMethod now courseLectures { e with progress := p1 }

/-- PUT /api/enrollments/:enrollmentId/progress: the enrollment is
looked up filtered on the requesting student and status active (404
otherwise), the lecture must belong to the enrollment course (400
otherwise), then addCompletedLecture runs. watchTime defaults to 0 and
completionPercentage to 100 in the route; callers of this definition
pass the defaulted values. -/
def updateProgressRoute (now : Nat) (courseLectures : List Nat)
    (e : Enrollment) (studentId lectureId watchTime completionPercentage : Nat) :
    Except ErrResponse Enrollment :=
  if ¬ (e.student = studentId ∧ e.status = EnrollmentStatus.active) then
    Except.error { status := 404, message := "Enrollment not found or not accessible" }
  else if lectureId ∉ courseLectures then
    Except.error { status := 400, message := "Lecture does not belong to this course" }
  else
    Except.ok (Enrollment.addCompletedLecture now courseLectures e lectureId
      watchTime completionPercentage)

/-- The rating aggregate stored on a course document. The route stores
rating.average = Math.round(averageRating * 10) / 10, a number with one
decimal digit; it is kept here in tenths (averageTenths) so that all
arithmetic stays exact on integers: the stored JS number equals
averageTenths / 10. -/
structure CourseRating where
  averageTenths : Nat
  count : Nat
deriving DecidableEq, Repr

/-- The Enrollment.find query of the rating route: all enrollments of
the course whose rating.score exists. -/
def ratedEnrollments (db : List Enrollment) (courseId : Nat) : List Enrollment :=
  db.filter (fun e => e.course == courseId && e.rating.score != 0)

/-- The aggregate recomputation block of the rating route: sum all
scores by reduce, divide by the count, store the rounded-to-one-decimal
average and the count; with no rated enrollment the stored rating is
left as it was. -/
def recomputeCourseRating (db : List Enrollment) (courseId : Nat)
    (old : CourseRating) : CourseRating :=
  let allRatings := ratedEnrollments db courseId
  if 0 < allRatings.length then
    let totalRating : Nat := allRatings.foldl (fun sum e => sum + e.rating.score) 0
    { averageTenths := jsRoundDiv (totalRating * 10) allRatings.length,
      count := allRatings.length }
  else
    old

/-- POST /api/enrollments/:enrollmentId/rating. Validation requires
score between 1 and 5 and review at most 500 characters; the
enrollment is looked up by id restricted to the requesting student;
an already set rating.score yields the already-rated rejection with
nothing written; otherwise the rating is stored on the enrollment and
the course aggregate recomputed over the updated collection. Returns
the response payload (the stored rating), the updated enrollment
collection and the updated course rating; error responses leave
both unchanged. -/
def rateCourse (now : Nat) (db : List Enrollment) (oldCourseRating : CourseRating)
    (studentId enrollmentId score : Nat) (review : String) :
    Except ErrResponse Rating × List Enrollment × CourseRating :=
  if ¬ (1 ≤ score ∧ score ≤ 5 ∧ review.length ≤ 500) then
    (Except.error { status := 400, message := "Validation errors" }, db, oldCourseRating)
  else
    match db.find? (fun e => e.id == enrollmentId && e.student == studentId) with
    | none =>
      (Except.error { status := 404, message := "Enrollment not found or not accessible" },
        db, oldCourseRating)
    | some enrollment =>
      if enrollment.rating.score ≠ 0 then
        (Except.error { status := 400, message := "You have already rated this course" },
          db, oldCourseRating)
      else
        let newRating : Rating := { score := score, review := review, reviewedAt := some now }
        let enrollment2 := { enrollment with rating := newRating }
        let db2 := db.map (fun e => if e.id == enrollmentId then enrollment2 else e)
        (Except.ok newRating, db2,
          recomputeCourseRating db2 enrollment.course oldCourseRating)

/-- A create request colliding with the order of an existing fixture
lecture. -/
def exCreateReqOrder1 : CreateLectureReq :=
  { courseId := 7, title := "Backpropagation", description := "",
    order := 1, contentType := ContentType.text,
    textContent := "explain backprop", voiceSettings := none }

/-- An update request moving the order-1 fixture lecture onto the
taken order 2. -/
def exUpdateReqOrder2 : UpdateLectureReq :=
  { title := "Neural networks v2", description := "",
    order := 2, contentType := ContentType.aiGenerated,
    textContent := "hello world", voiceSettings := none }

/-- Pairwise distinctness of order values within each course: any two
lectures of the same course have different order values. -/
def ordersDistinct (db : List Lecture) : Prop :=
  db.Pairwise (fun a b => a.course = b.course → a.order ≠ b.order)

instance (db : List Lecture) : Decidable (ordersDistinct db) := by
  unfold ordersDistinct
  infer_instance

/-! Concrete fixtures used by counterexamples and witnesses. -/

/-- An ai-generated lecture whose processing completed and which was
then published. -/
def exAiLecture : Lecture :=
  { id := 1, title := "Neural networks", description := "intro",
    course := 7, order := 1,
    contentType := ContentType.aiGenerated, textContent := "hello world",
    aiProcessing :=
      { status := AIStatus.completed, progress := 100, errorMessage := "",
        processedAt := some 50, voiceSettings := defaultVoiceSettings },
    files := FileRefs.empty, cloudinaryUrls := CloudinaryUrls.empty,
    isPublished := true, publishedAt := some 60 }

/-- An ai-generated lecture whose hand-off failed at creation time:
status failed with the stored errorMessage, unpublished. -/
def exFailedLecture : Lecture :=
  { id := 2, title := "Gradient descent", description := "",
    course := 7, order := 2,
    contentType := ContentType.aiGenerated, textContent := "some text",
    aiProcessing :=
      { status := AIStatus.failed, progress := 0,
        errorMessage := "Failed to start AI processing",
        processedAt := none, voiceSettings := defaultVoiceSettings },
    files := FileRefs.empty, cloudinaryUrls := CloudinaryUrls.empty,
    isPublished := false, publishedAt := none }

/-- The full state of exFailedLecture after a reprocess whose hand-off
succeeded, spelled out field by field: status processing, progress 0,
errorMessage erased to the empty string, everything else as before.
No field of the document records the transition history. -/
def exReprocessedLecture : Lecture :=
  { id := 2, title := "Gradient descent", description := "",
    course := 7, order := 2,
    contentType := ContentType.aiGenerated, textContent := "some text",
    aiProcessing :=
      { status := AIStatus.processing, progress := 0, errorMessage := "",
        processedAt := none, voiceSettings := defaultVoiceSettings },
    files := FileRefs.empty, cloudinaryUrls := CloudinaryUrls.empty,
    isPublished := false, publishedAt := none }

/-- A plain text lecture. -/
def exTextLecture : Lecture :=
  { id := 3, title := "Reading list", description := "",
    course := 7, order := 3,
    contentType := ContentType.text, textContent := "read chapter 1",
    aiProcessing :=
      { status := AIStatus.pending, progress := 0, errorMessage := "",
        processedAt := none, voiceSettings := defaultVoiceSettings },
    files := FileRefs.empty, cloudinaryUrls := CloudinaryUrls.empty,
    isPublished := false, publishedAt := none }

/-- The lecture ids of the fixture course (four lectures). -/
def exCourseLectures : List Nat :=
  [101, 102, 103, 104]

/-- An active enrollment that has completed three of the four course
lectures. -/
def exEnrActive : Enrollment :=
  { id := 21, student := 31, course := 7,
    status := EnrollmentStatus.active,
    progress :=
      { completedLectures :=
          [ { lecture := 101, completedAt := 10, watchTime := 300, completionPercentage := 100 },
            { lecture := 102, completedAt := 11, watchTime := 200, completionPercentage := 100 },
            { lecture := 103, completedAt := 12, watchTime := 100, completionPercentage := 100 } ],
        overallProgress := 75, lastAccessedLecture := some 103,
        lastAccessedAt := 12, totalWatchTime := 600 },
    completedAt := none,
    rating := { score := 0, review := "", reviewedAt := none } }

/-- A completed enrollment with its completion timestamp already set. -/
def exEnrDone : Enrollment :=
  { id := 22, student := 32, course := 7,
    status := EnrollmentStatus.completed,
    progress :=
      { completedLectures :=
          [ { lecture := 101, completedAt := 10, watchTime := 300, completionPercentage := 100 },
            { lecture := 102, completedAt := 11, watchTime := 200, completionPercentage := 100 },
            { lecture := 103, completedAt := 12, watchTime := 100, completionPercentage := 100 },
            { lecture := 104, completedAt := 13, watchTime := 100, completionPercentage := 100 } ],
        overallProgress := 100, lastAccessedLecture := some 104,
        lastAccessedAt := 13, totalWatchTime := 700 },
    completedAt := some 13,
    rating := { score := 0, review := "", reviewedAt := none } }

/-- An enrollment of the same course that already carries a rating. -/
def exEnrRated : Enrollment :=
  { id := 23, student := 33, course := 7,
    status := EnrollmentStatus.completed,
    progress :=
      { completedLectures := [], overallProgress := 100,
        lastAccessedLecture := none, lastAccessedAt := 5, totalWatchTime := 0 },
    completedAt := some 20,
    rating := { score := 5, review := "great", reviewedAt := some 21 } }

/-- Fixture enrollment collection for the rating route. -/
def exEnrDb : List Enrollment :=
  [exEnrActive, exEnrRated]

/-- Fixture lecture collection. -/
def exLectureDb : List Lecture :=
  [exAiLecture, exFailedLecture, exTextLecture]

/-- A create request for an ai-generated lecture with text. -/
def exCreateReq : CreateLectureReq :=
  { courseId := 7, title := "Backpropagation", description := "",
    order := 4, contentType := ContentType.aiGenerated,
    textContent := "explain backprop", voiceSettings := none }

/-- An update request keeping the order of exAiLecture. -/
def exUpdateReq : UpdateLectureReq :=
  { title := "Neural networks v2", description := "",
    order := 1, contentType := ContentType.aiGenerated,
    textContent := "hello world", voiceSettings := none }

/-! Helper lemmas. -/

/-- jsRoundDiv is the floor of the exact rational a / b + 1/2, which is
Math.round of a / b. -/
theorem jsRoundDiv_eq_floor (a b : Nat) (hb : 0 < b) :
    (jsRoundDiv a b : ℤ) = ⌊(a : ℚ) / (b : ℚ) + 1 / 2⌋ := by
  have hbq : (b : ℚ) ≠ 0 := Nat.cast_ne_zero.mpr hb.ne'
  have h1 : (a : ℚ) / (b : ℚ) + 1 / 2 =
      ((((2 * a + b : ℕ) : ℤ) : ℚ)) / (((2 * b : ℕ) : ℚ)) := by
    push_cast
    field_simp
    ring
  rw [jsRoundDiv, h1, Rat.floor_intCast_div_natCast]
  rw [Int.ofNat_div]
  push_cast
  rfl

/-- jsRoundDiv a b is at most k as soon as a is at most k * b. -/
theorem jsRoundDiv_le (a b k : Nat) (h : a ≤ k * b) :
    jsRoundDiv a b ≤ k := by
  unfold jsRoundDiv
  have h2 : 2 * a + b ≤ 2 * (k * b) + b := by omega
  have e1 : k * (2 * b) = 2 * (k * b) := by ring
  have e2 : (k + 1) * (2 * b) = 2 * (k * b) + 2 * b := by ring
  rcases Nat.eq_zero_or_pos b with hb | hb
  · subst hb
    simp [jsRoundDiv]
  · calc (2 * a + b) / (2 * b) ≤ (2 * (k * b) + b) / (2 * b) := Nat.div_le_div_right h2
      _ = k := Nat.div_eq_of_lt_le (by omega) (by omega)

/-- The lecture ids recorded in completedLectures are unchanged by an
upsert that hits an existing entry. -/
theorem upsertCompleted_map_of_mem (lid now wt pct : Nat) (l : List CompletedLecture)
    (h : lid ∈ l.map (fun cl => cl.lecture)) :
    (upsertCompleted lid now wt pct l).map (fun cl => cl.lecture) =
      l.map (fun cl => cl.lecture) := by
  induction l with
  | nil => simp at h
  | cons cl rest ih =>
    by_cases hc : cl.lecture = lid
    · simp [upsertCompleted, hc]
    · have h' : lid ∈ rest.map (fun cl => cl.lecture) := by
        simp only [List.map_cons, List.mem_cons] at h
        rcases h with h | h
        · exact absurd h.symm hc
        · exact h
      simp [upsertCompleted, hc, ih h']

/-- The lecture ids after an upsert that misses are the old ids with
the new one appended. -/
theorem upsertCompleted_map_of_not_mem (lid now wt pct : Nat) (l : List CompletedLecture)
    (h : lid ∉ l.map (fun cl => cl.lecture)) :
    (upsertCompleted lid now wt pct l).map (fun cl => cl.lecture) =
      l.map (fun cl => cl.lecture) ++ [lid] := by
  induction l with
  | nil => simp [upsertCompleted]
  | cons cl rest ih =>
    simp only [List.map_cons, List.mem_cons] at h
    push_neg at h
    have hc : cl.lecture ≠ lid := fun hx => h.1 hx.symm
    simp [upsertCompleted, hc, ih h.2]

/-- Length of the completion list after an upsert that hits. -/
theorem upsertCompleted_length_of_mem (lid now wt pct : Nat) (l : List CompletedLecture)
    (h : lid ∈ l.map (fun cl => cl.lecture)) :
    (upsertCompleted lid now wt pct l).length = l.length := by
  have := upsertCompleted_map_of_mem lid now wt pct l h
  have h2 := congrArg List.length this
  simpa using h2

/-- Length of the completion list after an upsert that misses. -/
theorem upsertCompleted_length_of_not_mem (lid now wt pct : Nat) (l : List CompletedLecture)
    (h : lid ∉ l.map (fun cl => cl.lecture)) :
    (upsertCompleted lid now wt pct l).length = l.length + 1 := by
  have := upsertCompleted_map_of_not_mem lid now wt pct l h
  have h2 := congrArg List.length this
  simpa using h2

/-- The first entry carrying the upserted lecture id after the upsert:
the fields are the pointwise maxima with the old entry. -/
theorem upsertCompleted_find (lid now wt pct : Nat) (l : List CompletedLecture)
    (old : CompletedLecture)
    (h : l.find? (fun cl => cl.lecture == lid) = some old) :
    (upsertCompleted lid now wt pct l).find? (fun cl => cl.lecture == lid) =
      some { old with
        watchTime := max old.watchTime wt,
        completionPercentage := max old.completionPercentage pct } := by
  induction l with
  | nil => simp [List.find?] at h
  | cons cl rest ih =>
    by_cases hc : cl.lecture = lid
    · rw [List.find?] at h
      simp only [hc, beq_self_eq_true] at h
      have : cl = old := by
        injection h
      subst this
      simp [upsertCompleted, hc, List.find?]
    · rw [List.find?] at h
      have hb : (cl.lecture == lid) = false := beq_eq_false_iff_ne.mpr hc
      rw [hb] at h
      simp only [upsertCompleted, hc, if_false, List.find?, hb]
      exact ih h

/-- Entries for other lecture ids are untouched by the upsert. -/
theorem upsertCompleted_filter_ne (lid now wt pct : Nat) (l : List CompletedLecture) :
    (upsertCompleted lid now wt pct l).filter (fun cl => cl.lecture != lid) =
      l.filter (fun cl => cl.lecture != lid) := by
  induction l with
  | nil => simp [upsertCompleted, List.filter]
  | cons cl rest ih =>
    by_cases hc : cl.lecture = lid
    · simp [upsertCompleted, hc, List.filter]
    · have hb : (cl.lecture != lid) = true := by
        simp [bne, beq_eq_false_iff_ne.mpr hc]
      simp [upsertCompleted, hc, List.filter, hb, ih]

/-- The pre-save hook touches publishedAt only. -/
theorem lectureSaveHook_frame (now : Nat) (b a : Lecture) :
    (lectureSaveHook now b a).isPublished = a.isPublished ∧
    (lectureSaveHook now b a).contentType = a.contentType ∧
    (lectureSaveHook now b a).aiProcessing = a.aiProcessing := by
  unfold lectureSaveHook
  split <;> exact ⟨rfl, rfl, rfl⟩

/-- The hand-off attempt touches only the aiProcessing status and
errorMessage. -/
theorem handoffStep_frame (ho : Bool) (fm : String) (l : Lecture) :
    (handoffStep ho fm l).isPublished = l.isPublished ∧
    (handoffStep ho fm l).contentType = l.contentType ∧
    (handoffStep ho fm l).id = l.id ∧
    (handoffStep ho fm l).course = l.course ∧
    (handoffStep ho fm l).order = l.order ∧
    (handoffStep ho fm l).textContent = l.textContent ∧
    (handoffStep ho fm l).title = l.title ∧
    (handoffStep ho fm l).description = l.description ∧
    (handoffStep ho fm l).publishedAt = l.publishedAt ∧
    (handoffStep ho fm l).files = l.files ∧
    (handoffStep ho fm l).cloudinaryUrls = l.cloudinaryUrls := by
  cases ho <;>
    exact ⟨rfl, rfl, rfl, rfl, rfl, rfl, rfl, rfl, rfl, rfl, rfl⟩

/-- Status after the hand-off attempt. -/
theorem handoffStep_status (ho : Bool) (fm : String) (l : Lecture) :
    (handoffStep ho fm l).aiProcessing.status =
      (if ho then AIStatus.processing else AIStatus.failed) := by
  cases ho <;> rfl

/-- errorMessage after the hand-off attempt. -/
theorem handoffStep_errMsg (ho : Bool) (fm : String) (l : Lecture) :
    (handoffStep ho fm l).aiProcessing.errorMessage =
      (if ho then l.aiProcessing.errorMessage else fm) := by
  cases ho <;> rfl

/-! Claim theorems. -/

/-- C10: reprocessLecture rejects exactly when contentType is not
ai-generated (400, naming that restriction) or the stored textContent
is empty (400); the current aiProcessing.status is never inspected, so
every ai-generated lecture with text — whatever its status and
isPublished flag, including completed and published — is accepted: the
reset step puts status pending, clears errorMessage, files and
cloudinaryUrls, the hand-off is re-attempted, and isPublished is left
untouched. -/
theorem C10_reprocess_guards :
    (∀ (l : Lecture) (ho : Bool), l.contentType ≠ ContentType.aiGenerated →
      reprocessLecture l ho =
        Except.error { status := 400, message := "Only AI-generated lectures can be reprocessed" }) ∧
    (∀ (l : Lecture) (ho : Bool), l.contentType = ContentType.aiGenerated →
      l.textContent = "" →
      reprocessLecture l ho =
        Except.error { status := 400, message := "No text content available for processing" }) ∧
    (∀ (l : Lecture) (ho : Bool), l.contentType = ContentType.aiGenerated →
      l.textContent ≠ "" →
      reprocessLecture l ho =
        Except.ok (handoffStep ho "Failed to restart AI processing" (reprocessReset l)) ∧
      (reprocessReset l).aiProcessing.status = AIStatus.pending ∧
      (reprocessReset l).aiProcessing.progress = 0 ∧
      (reprocessReset l).aiProcessing.errorMessage = "" ∧
      (reprocessReset l).files = FileRefs.empty ∧
      (reprocessReset l).cloudinaryUrls = CloudinaryUrls.empty ∧
      (resultOr (reprocessLecture l ho) l).isPublished = l.isPublished) := by
  refine ⟨?_, ?_, ?_⟩
  · intro l ho hct
    simp [reprocessLecture, hct]
  · intro l ho hct htext
    simp [reprocessLecture, hct, htext]
  · intro l ho hct htext
    refine ⟨by simp [reprocessLecture, hct, htext], rfl, rfl, rfl, rfl, rfl, ?_⟩
    simp only [reprocessLecture, hct]
    rw [if_neg (by simp), if_neg htext]
    cases ho <;> simp [resultOr, handoffStep, reprocessReset]

/-- C10 witness: the completed and published fixture lecture is
accepted by reprocess, its status is reset to pending and its
isPublished flag stays true. -/
theorem C10_witness :
    exAiLecture.contentType = ContentType.aiGenerated ∧
    exAiLecture.textContent ≠ "" ∧
    exAiLecture.aiProcessing.status = AIStatus.completed ∧
    exAiLecture.isPublished = true ∧
    (reprocessLecture exAiLecture true =
        Except.ok (handoffStep true "Failed to restart AI processing" (reprocessReset exAiLecture)) ∧
      (reprocessReset exAiLecture).aiProcessing.status = AIStatus.pending ∧
      (reprocessReset exAiLecture).aiProcessing.progress = 0 ∧
      (reprocessReset exAiLecture).aiProcessing.errorMessage = "" ∧
      (reprocessReset exAiLecture).files = FileRefs.empty ∧
      (reprocessReset exAiLecture).cloudinaryUrls = CloudinaryUrls.empty ∧
      (resultOr (reprocessLecture exAiLecture true) exAiLecture).isPublished =
        exAiLecture.isPublished) :=
  ⟨rfl, by decide, rfl, rfl,
    C10_reprocess_guards.2.2 exAiLecture true rfl (by decide)⟩

/-- C9 counterexample: the failed fixture lecture stores the
human-readable failure record in aiProcessing.errorMessage; the
failed-to-pending reprocess transition erases it, and the resulting
document — spelled out field by field — contains no processing log at
all: the lecture schema has no log field, so no transition appends a
log entry, and this transition rewrites (clears) the only stored
record. -/
theorem C9_counterexample :
    exFailedLecture.aiProcessing.errorMessage = "Failed to start AI processing" ∧
    resultOr (reprocessLecture exFailedLecture true) exFailedLecture = exReprocessedLecture ∧
    exReprocessedLecture.aiProcessing.errorMessage = "" := by
  exact ⟨rfl, rfl, rfl⟩

/-- C9 amended: transitions of the AI-processing state machine keep no
append-only log on the lecture. A successful reprocess writes only the
aiProcessing fields, files and cloudinaryUrls: every other field is
unchanged, the stored errorMessage is cleared (overwritten with the
hand-off failure message when the hand-off fails), and no field of the
document grows. -/
theorem C9_no_processing_log :
    ∀ (l : Lecture) (ho : Bool) (l' : Lecture),
      reprocessLecture l ho = Except.ok l' →
      l'.aiProcessing.errorMessage =
        (if ho then "" else "Failed to restart AI processing") ∧
      l'.files = FileRefs.empty ∧
      l'.cloudinaryUrls = CloudinaryUrls.empty ∧
      l'.id = l.id ∧ l'.title = l.title ∧ l'.description = l.description ∧
      l'.course = l.course ∧ l'.order = l.order ∧
      l'.contentType = l.contentType ∧ l'.textContent = l.textContent ∧
      l'.isPublished = l.isPublished ∧ l'.publishedAt = l.publishedAt := by
  intro l ho l' h
  unfold reprocessLecture at h
  split at h
  · simp at h
  · split at h
    · simp at h
    · injection h with h
      subst h
      cases ho <;> simp [handoffStep, reprocessReset]

/-- C9 witness for the amended theorem: concrete reprocess of the
failed fixture lecture. -/
theorem C9_witness :
    reprocessLecture exFailedLecture true = Except.ok exReprocessedLecture ∧
    exReprocessedLecture.aiProcessing.errorMessage = (if true then "" else "Failed to restart AI processing") ∧
    exReprocessedLecture.textContent = exFailedLecture.textContent :=
  ⟨rfl, (C9_no_processing_log exFailedLecture true exReprocessedLecture rfl).1,
    (C9_no_processing_log exFailedLecture true exReprocessedLecture rfl).2.2.2.2.2.2.2.2.2.1⟩

/-- C1 counterexample: the completed and published ai-generated fixture
lecture satisfies the publish invariant; the reprocess operation — an
operation other than an explicit publish — is accepted on it and
yields a lecture violating the invariant (isPublished still true,
status no longer completed). -/
theorem C1_counterexample :
    publishInvariant exAiLecture ∧
    exceptIsOk (reprocessLecture exAiLecture true) = true ∧
    ¬ publishInvariant (resultOr (reprocessLecture exAiLecture true) exAiLecture) := by
  decide

/-- C1 amended: the publish operation enforces the invariant at
publish time — every lecture returned by a successful publish
satisfies it — and every lecture returned by createLecture satisfies
it (new lectures are unpublished); the status poll is a pure read.
However, the invariant is not preserved by every non-publish
operation: reprocess (and an update that resets AI processing) can
make it false on a published ai-generated lecture, as the
counterexample shows. -/
theorem C1_publish_establishes_invariant :
    (∀ (now : Nat) (lecture : Lecture) (pub : Bool) (l' : Lecture),
      publishLecture now lecture pub = Except.ok l' → publishInvariant l') ∧
    (∀ (db : List Lecture) (newId : Nat) (req : CreateLectureReq)
      (co ho : Bool) (l : Lecture) (db' : List Lecture),
      createLecture db newId req co ho = Except.ok (l, db') → publishInvariant l) := by
  constructor
  · intro now lecture pub l' h
    by_cases hg : pub = true ∧ lecture.contentType = ContentType.aiGenerated ∧
        lecture.aiProcessing.status ≠ AIStatus.completed
    · simp [publishLecture, hg] at h
    · simp only [publishLecture, hg, if_false] at h
      injection h with h
      subst h
      intro hpub
      have hframe := lectureSaveHook_frame now lecture { lecture with isPublished := pub }
      rw [hframe.1] at hpub
      simp only [] at hpub
      rw [hframe.2.1, hframe.2.2]
      simp only []
      push_neg at hg
      by_cases hct : lecture.contentType = ContentType.aiGenerated
      · exact Or.inr (hg hpub hct)
      · exact Or.inl hct
  · intro db newId req co ho l db' h
    unfold createLecture at h
    split at h
    · simp at h
    · split at h
      · simp at h
      · split at h
        · simp at h
        · simp only [Except.ok.injEq, Prod.mk.injEq] at h
          intro hpub
          rw [← h.1] at hpub
          split at hpub
          · rw [handoffStep_frame _ _ _ |>.1] at hpub
            simp at hpub
          · simp at hpub

/-- C1 witness for the amended theorem: publishing the completed
fixture lecture succeeds and the result satisfies the invariant. -/
theorem C1_witness :
    publishLecture 99 exAiLecture true = Except.ok exAiLecture ∧
    publishInvariant exAiLecture :=
  ⟨rfl, C1_publish_establishes_invariant.1 99 exAiLecture true exAiLecture rfl⟩

/-- C2: publishing an ai-generated lecture whose processing status is
pending, processing or failed is rejected with the 400 response naming
the required state (processing must be complete), and the lecture
collection — in particular the isPublished field of the target — is
left untouched. -/
theorem C2_publish_rejected_until_complete
    (now : Nat) (db : List Lecture) (id : Nat) (l : Lecture)
    (hfind : db.find? (fun x => x.id == id) = some l)
    (hct : l.contentType = ContentType.aiGenerated)
    (hst : l.aiProcessing.status = AIStatus.pending ∨
      l.aiProcessing.status = AIStatus.processing ∨
      l.aiProcessing.status = AIStatus.failed) :
    publishRoute now db id true =
      (Except.error
        { status := 400,
          message := "Cannot publish AI-generated lecture until processing is complete" },
        db) := by
  unfold publishRoute
  rw [hfind]
  rcases hst with h | h | h <;> simp [publishLecture, hct, h]

/-- C2 witness: the failed fixture lecture in the fixture collection,
with isPublished false before and after. -/
theorem C2_witness :
    exLectureDb.find? (fun x => x.id == 2) = some exFailedLecture ∧
    exFailedLecture.isPublished = false ∧
    publishRoute 99 exLectureDb 2 true =
      (Except.error
        { status := 400,
          message := "Cannot publish AI-generated lecture until processing is complete" },
        exLectureDb) :=
  ⟨rfl, rfl,
    C2_publish_rejected_until_complete 99 exLectureDb 2 exFailedLecture rfl rfl
      (Or.inr (Or.inr rfl))⟩

/-- addCompletedLecture stores exactly the upserted completion list. -/
theorem addCompletedLecture_completedLectures (now : Nat) (cls : List Nat)
    (e : Enrollment) (lid wt pct : Nat) :
    (Enrollment.addCompletedLecture now cls e lid wt pct).progress.completedLectures =
      upsertCompleted lid now wt pct e.progress.completedLectures := by
  simp only [Enrollment.addCompletedLecture, Enrollment.updateProgressMethod]
  split
  · split <;> rfl
  · rfl

/-- addCompletedLecture adds watchTime to totalWatchTime on every
call. -/
theorem addCompletedLecture_totalWatchTime (now : Nat) (cls : List Nat)
    (e : Enrollment) (lid wt pct : Nat) :
    (Enrollment.addCompletedLecture now cls e lid wt pct).progress.totalWatchTime =
      e.progress.totalWatchTime + wt := by
  simp only [Enrollment.addCompletedLecture, Enrollment.updateProgressMethod]
  split
  · split <;> rfl
  · rfl

/-- With lectures in the course, the recomputed overallProgress is the
rounded percentage of the upserted completion count. -/
theorem addCompletedLecture_overall (now : Nat) (cls : List Nat)
    (e : Enrollment) (lid wt pct : Nat) (h : 0 < cls.length) :
    (Enrollment.addCompletedLecture now cls e lid wt pct).progress.overallProgress =
      jsRoundDiv ((upsertCompleted lid now wt pct e.progress.completedLectures).length * 100)
        cls.length := by
  simp only [Enrollment.addCompletedLecture, Enrollment.updateProgressMethod]
  rw [if_pos h]
  split <;> rfl

/-- With no lectures in the course, overallProgress is left as it
was. -/
theorem addCompletedLecture_overall_zero (now : Nat) (cls : List Nat)
    (e : Enrollment) (lid wt pct : Nat) (h : cls.length = 0) :
    (Enrollment.addCompletedLecture now cls e lid wt pct).progress.overallProgress =
      e.progress.overallProgress := by
  simp only [Enrollment.addCompletedLecture, Enrollment.updateProgressMethod]
  rw [if_neg (by omega)]

/-- Size bound for the upserted completion list: when every previously
completed lecture belongs to the course, the recorded lecture ids are
free of duplicates and the new lecture id belongs to the course, the
upserted list is no longer than the course lecture list. -/
theorem upsertCompleted_length_le (cls : List Nat) (lid now wt pct : Nat)
    (l : List CompletedLecture)
    (hsub : ∀ cl ∈ l, cl.lecture ∈ cls)
    (hnodup : (l.map (fun cl => cl.lecture)).Nodup)
    (hlid : lid ∈ cls) :
    (upsertCompleted lid now wt pct l).length ≤ cls.length := by
  have hks : (l.map (fun cl => cl.lecture)) ⊆ cls := by
    intro x hx
    simp only [List.mem_map] at hx
    obtain ⟨cl, hcl, rfl⟩ := hx
    exact hsub cl hcl
  by_cases hm : lid ∈ l.map (fun cl => cl.lecture)
  · rw [upsertCompleted_length_of_mem _ _ _ _ _ hm]
    have h1 := (List.subperm_of_subset hnodup hks).length_le
    simpa using h1
  · rw [upsertCompleted_length_of_not_mem _ _ _ _ _ hm]
    have hn2 : (l.map (fun cl => cl.lecture) ++ [lid]).Nodup := by
      rw [List.nodup_append]
      refine ⟨hnodup, List.nodup_singleton lid, ?_⟩
      intro x hx hx2
      simp only [List.mem_singleton] at hx2
      subst hx2
      exact hm hx
    have hs2 : (l.map (fun cl => cl.lecture) ++ [lid]) ⊆ cls := by
      intro x hx
      rcases List.mem_append.mp hx with hx | hx
      · exact hks hx
      · simp only [List.mem_singleton] at hx
        subst hx
        exact hlid
    have h1 := (List.subperm_of_subset hn2 hs2).length_le
    simpa using h1

/-- C3: after every completion event, recordLectureCompletion
(addCompletedLecture) recomputes overallProgress as
round (100 * completed / total) over the new completion count — stated
both as the integer computation and as the floor of the exact
rational — and the value is at most 100 (at least 0 by type); when the
course has no lectures, the previous overallProgress is kept. The
hypotheses are the reachable-state facts enforced by the progress
route: recorded lectures belong to the course, recorded ids are
duplicate-free, and the new lecture id belongs to the course when the
course is nonempty. -/
theorem C3_overall_progress_formula (now : Nat) (cls : List Nat) (e : Enrollment)
    (lid wt pct : Nat)
    (hsub : ∀ cl ∈ e.progress.completedLectures, cl.lecture ∈ cls)
    (hnodup : (e.progress.completedLectures.map (fun cl => cl.lecture)).Nodup)
    (hmem : cls ≠ [] → lid ∈ cls) :
    (cls.length = 0 →
      (Enrollment.addCompletedLecture now cls e lid wt pct).progress.overallProgress =
        e.progress.overallProgress) ∧
    (0 < cls.length →
      (Enrollment.addCompletedLecture now cls e lid wt pct).progress.overallProgress =
        jsRoundDiv
          ((Enrollment.addCompletedLecture now cls e lid wt pct).progress.completedLectures.length * 100)
          cls.length ∧
      (((Enrollment.addCompletedLecture now cls e lid wt pct).progress.overallProgress : ℤ) =
        ⌊100 * ((Enrollment.addCompletedLecture now cls e lid wt pct).progress.completedLectures.length : ℚ) /
            (cls.length : ℚ) + 1 / 2⌋) ∧
      (Enrollment.addCompletedLecture now cls e lid wt pct).progress.overallProgress ≤ 100) := by
  constructor
  · intro h0
    exact addCompletedLecture_overall_zero now cls e lid wt pct h0
  · intro hpos
    have hlid : lid ∈ cls := hmem (by intro hnil; rw [hnil] at hpos; simp at hpos)
    have hlen := upsertCompleted_length_le cls lid now wt pct
      e.progress.completedLectures hsub hnodup hlid
    have hover := addCompletedLecture_overall now cls e lid wt pct hpos
    have hcl := addCompletedLecture_completedLectures now cls e lid wt pct
    rw [hcl]
    refine ⟨hover, ?_, ?_⟩
    · rw [hover]
      rw [jsRoundDiv_eq_floor _ _ hpos]
      congr 1
      push_cast
      ring
    · rw [hover]
      exact jsRoundDiv_le _ _ _ (by
        have := Nat.mul_le_mul_right 100 hlen
        omega)

/-- C3 witness: the active fixture enrollment completing the fourth
lecture of the four-lecture fixture course. -/
theorem C3_witness :
    (∀ cl ∈ exEnrActive.progress.completedLectures, cl.lecture ∈ exCourseLectures) ∧
    (exEnrActive.progress.completedLectures.map (fun cl => cl.lecture)).Nodup ∧
    (0 < exCourseLectures.length →
      (Enrollment.addCompletedLecture 40 exCourseLectures exEnrActive 104 50 100).progress.overallProgress =
        jsRoundDiv
          ((Enrollment.addCompletedLecture 40 exCourseLectures exEnrActive 104 50 100).progress.completedLectures.length * 100)
          exCourseLectures.length ∧
      (((Enrollment.addCompletedLecture 40 exCourseLectures exEnrActive 104 50 100).progress.overallProgress : ℤ) =
        ⌊100 * ((Enrollment.addCompletedLecture 40 exCourseLectures exEnrActive 104 50 100).progress.completedLectures.length : ℚ) /
            (exCourseLectures.length : ℚ) + 1 / 2⌋) ∧
      (Enrollment.addCompletedLecture 40 exCourseLectures exEnrActive 104 50 100).progress.overallProgress ≤ 100) :=
  ⟨by decide, by decide,
    (C3_overall_progress_formula 40 exCourseLectures exEnrActive 104 50 100
      (by decide) (by decide) (fun _ => by decide)).2⟩

/-- A completed enrollment is untouched by a further completion call:
status stays completed and completedAt is not overwritten. -/
theorem addCompletedLecture_completed_stable (now : Nat) (cls : List Nat)
    (e : Enrollment) (lid wt pct : Nat) (h : e.status = EnrollmentStatus.completed) :
    (Enrollment.addCompletedLecture now cls e lid wt pct).status = EnrollmentStatus.completed ∧
    (Enrollment.addCompletedLecture now cls e lid wt pct).completedAt = e.completedAt := by
  simp only [Enrollment.addCompletedLecture, Enrollment.updateProgressMethod]
  split
  · split
    · rename_i hcond
      rw [show (({ e with progress := { e.progress with
          completedLectures := upsertCompleted lid now wt pct e.progress.completedLectures,
          totalWatchTime := e.progress.totalWatchTime + wt,
          lastAccessedLecture := some lid,
          lastAccessedAt := now } } : Enrollment).status) = e.status from rfl, h] at hcond
      exact absurd hcond.2 (by simp)
    · exact ⟨h, rfl⟩
  · exact ⟨h, rfl⟩

/-- The automatic completion flip of updateProgress, characterized for
an active enrollment and a nonempty course: the enrollment becomes
completed with completedAt stamped exactly when the recomputed
overallProgress reaches 100; below 100 it stays active with
completedAt untouched. -/
theorem addCompletedLecture_flip (now : Nat) (cls : List Nat)
    (e : Enrollment) (lid wt pct : Nat)
    (ha : e.status = EnrollmentStatus.active) (hpos : 0 < cls.length) :
    (100 ≤ jsRoundDiv
        ((upsertCompleted lid now wt pct e.progress.completedLectures).length * 100)
        cls.length →
      (Enrollment.addCompletedLecture now cls e lid wt pct).status = EnrollmentStatus.completed ∧
      (Enrollment.addCompletedLecture now cls e lid wt pct).completedAt = some now) ∧
    (jsRoundDiv
        ((upsertCompleted lid now wt pct e.progress.completedLectures).length * 100)
        cls.length < 100 →
      (Enrollment.addCompletedLecture now cls e lid wt pct).status = EnrollmentStatus.active ∧
      (Enrollment.addCompletedLecture now cls e lid wt pct).completedAt = e.completedAt) := by
  simp only [Enrollment.addCompletedLecture, Enrollment.updateProgressMethod]
  rw [if_pos hpos]
  constructor
  · intro hr
    rw [if_pos ⟨hr, ha⟩]
    exact ⟨rfl, rfl⟩
  · intro hr
    rw [if_neg (by
      intro hcond
      exact absurd hcond.1 (by omega))]
    exact ⟨ha, rfl⟩

/-- C4: the transition to status completed fires automatically exactly
when the recomputed overallProgress reaches 100 while the enrollment
is active, stamping completedAt at that moment; once completed, no
further completion call changes status or completedAt — the progress
route even rejects such a call with 404, since its query filters on
status active. -/
theorem C4_completed_once (now : Nat) (cls : List Nat) (e : Enrollment)
    (studentId lid wt pct : Nat) :
    (e.status = EnrollmentStatus.completed →
      updateProgressRoute now cls e studentId lid wt pct =
        Except.error { status := 404, message := "Enrollment not found or not accessible" } ∧
      (Enrollment.addCompletedLecture now cls e lid wt pct).status = EnrollmentStatus.completed ∧
      (Enrollment.addCompletedLecture now cls e lid wt pct).completedAt = e.completedAt) ∧
    (e.status = EnrollmentStatus.active → 0 < cls.length →
      (100 ≤ jsRoundDiv
          ((upsertCompleted lid now wt pct e.progress.completedLectures).length * 100)
          cls.length →
        (Enrollment.addCompletedLecture now cls e lid wt pct).status = EnrollmentStatus.completed ∧
        (Enrollment.addCompletedLecture now cls e lid wt pct).completedAt = some now) ∧
      (jsRoundDiv
          ((upsertCompleted lid now wt pct e.progress.completedLectures).length * 100)
          cls.length < 100 →
        (Enrollment.addCompletedLecture now cls e lid wt pct).status = EnrollmentStatus.active ∧
        (Enrollment.addCompletedLecture now cls e lid wt pct).completedAt = e.completedAt)) := by
  constructor
  · intro h
    refine ⟨?_, addCompletedLecture_completed_stable now cls e lid wt pct h⟩
    unfold updateProgressRoute
    rw [if_pos (by
      intro hcond
      rw [h] at hcond
      exact absurd hcond.2 (by simp))]
  · intro ha hpos
    exact addCompletedLecture_flip now cls e lid wt pct ha hpos

/-- C4 witness: a completed fixture enrollment is rejected by the
route and keeps its completedAt; the active fixture enrollment
completing its fourth lecture reaches 100 and flips to completed with
completedAt stamped. -/
theorem C4_witness :
    (updateProgressRoute 77 exCourseLectures exEnrDone 32 101 10 100 =
        Except.error { status := 404, message := "Enrollment not found or not accessible" } ∧
      (Enrollment.addCompletedLecture 77 exCourseLectures exEnrDone 101 10 100).status =
        EnrollmentStatus.completed ∧
      (Enrollment.addCompletedLecture 77 exCourseLectures exEnrDone 101 10 100).completedAt =
        exEnrDone.completedAt) ∧
    (100 ≤ jsRoundDiv
        ((upsertCompleted 104 77 50 100 exEnrActive.progress.completedLectures).length * 100)
        exCourseLectures.length ∧
      (Enrollment.addCompletedLecture 77 exCourseLectures exEnrActive 104 50 100).status =
        EnrollmentStatus.completed ∧
      (Enrollment.addCompletedLecture 77 exCourseLectures exEnrActive 104 50 100).completedAt =
        some 77) :=
  ⟨(C4_completed_once 77 exCourseLectures exEnrDone 32 101 10 100).1 rfl,
    ⟨by decide,
      ((C4_completed_once 77 exCourseLectures exEnrActive 31 104 50 100).2 rfl
        (by decide)).1 (by decide)⟩⟩

/-- C5: a repeated completion call for an already recorded lecture
keeps the length of completedLectures, updates the stored record in
place to the pointwise maxima (hence never regresses), leaves every
other completion record untouched, and still adds the submitted
watchTime to totalWatchTime. -/
theorem C5_repeat_completion (now : Nat) (cls : List Nat) (e : Enrollment)
    (lid wt pct : Nat) (old : CompletedLecture)
    (hfind : e.progress.completedLectures.find? (fun cl => cl.lecture == lid) = some old) :
    (Enrollment.addCompletedLecture now cls e lid wt pct).progress.completedLectures.length =
      e.progress.completedLectures.length ∧
    (Enrollment.addCompletedLecture now cls e lid wt pct).progress.completedLectures.find?
        (fun cl => cl.lecture == lid) =
      some { old with
        watchTime := max old.watchTime wt,
        completionPercentage := max old.completionPercentage pct } ∧
    old.watchTime ≤ max old.watchTime wt ∧
    old.completionPercentage ≤ max old.completionPercentage pct ∧
    (Enrollment.addCompletedLecture now cls e lid wt pct).progress.completedLectures.filter
        (fun cl => cl.lecture != lid) =
      e.progress.completedLectures.filter (fun cl => cl.lecture != lid) ∧
    (Enrollment.addCompletedLecture now cls e lid wt pct).progress.totalWatchTime =
      e.progress.totalWatchTime + wt := by
  have hmemcl : old ∈ e.progress.completedLectures := List.mem_of_find?_eq_some hfind
  have hpred : (old.lecture == lid) = true := by
    have h2 := List.find?_some hfind
    simpa using h2
  have hlid : old.lecture = lid := by
    simpa using hpred
  have hm : lid ∈ e.progress.completedLectures.map (fun cl => cl.lecture) := by
    rw [List.mem_map]
    exact ⟨old, hmemcl, hlid⟩
  have hcl := addCompletedLecture_completedLectures now cls e lid wt pct
  refine ⟨?_, ?_, Nat.le_max_left _ _, Nat.le_max_left _ _, ?_, ?_⟩
  · rw [hcl]
    exact upsertCompleted_length_of_mem _ _ _ _ _ hm
  · rw [hcl]
    exact upsertCompleted_find _ _ _ _ _ _ hfind
  · rw [hcl]
    exact upsertCompleted_filter_ne _ _ _ _ _
  · exact addCompletedLecture_totalWatchTime now cls e lid wt pct

/-- C5 witness: re-completing lecture 103 of the active fixture
enrollment with a lower watch time and percentage. -/
theorem C5_witness :
    exEnrActive.progress.completedLectures.find? (fun cl => cl.lecture == 103) =
      some { lecture := 103, completedAt := 12, watchTime := 100, completionPercentage := 100 } ∧
    (Enrollment.addCompletedLecture 80 exCourseLectures exEnrActive 103 40 70).progress.completedLectures.length =
      exEnrActive.progress.completedLectures.length ∧
    (Enrollment.addCompletedLecture 80 exCourseLectures exEnrActive 103 40 70).progress.totalWatchTime =
      exEnrActive.progress.totalWatchTime + 40 :=
  ⟨rfl,
    (C5_repeat_completion 80 exCourseLectures exEnrActive 103 40 70
      { lecture := 103, completedAt := 12, watchTime := 100, completionPercentage := 100 } rfl).1,
    (C5_repeat_completion 80 exCourseLectures exEnrActive 103 40 70
      { lecture := 103, completedAt := 12, watchTime := 100, completionPercentage := 100 } rfl).2.2.2.2.2⟩

/-- C6: a create request for ai-generated content with text whose
hand-off to the generation service fails still succeeds as a request:
the lecture is created and returned (the Except is ok and the new
document is appended to the collection), with the failure converted
into aiProcessing.status = failed and the errorMessage stored, rather
than propagated as a request failure. -/
theorem C6_handoff_failure_contained (db : List Lecture) (newId : Nat)
    (req : CreateLectureReq)
    (hval : validLectureReq req.title req.description req.textContent req.order)
    (hct : req.contentType = ContentType.aiGenerated)
    (htext : req.textContent ≠ "")
    (hconf : db.any (fun l => l.course == req.courseId && l.order == req.order) = false) :
    exceptIsOk (createLecture db newId req true false) = true ∧
    (resultOr (createLecture db newId req true false) (exTextLecture, [])).1.aiProcessing.status =
      AIStatus.failed ∧
    (resultOr (createLecture db newId req true false) (exTextLecture, [])).1.aiProcessing.errorMessage =
      "Failed to start AI processing" ∧
    (resultOr (createLecture db newId req true false) (exTextLecture, [])).2 =
      db ++ [(resultOr (createLecture db newId req true false) (exTextLecture, [])).1] := by
  have hred : createLecture db newId req true false =
      Except.ok
        (handoffStep false "Failed to start AI processing"
          { id := newId, title := req.title, description := req.description,
            course := req.courseId, order := req.order,
            contentType := req.contentType, textContent := req.textContent,
            aiProcessing :=
              { status := AIStatus.pending, progress := 0, errorMessage := "",
                processedAt := none,
                voiceSettings := req.voiceSettings.getD defaultVoiceSettings },
            files := FileRefs.empty, cloudinaryUrls := CloudinaryUrls.empty,
            isPublished := false, publishedAt := none },
          db ++ [handoffStep false "Failed to start AI processing"
            { id := newId, title := req.title, description := req.description,
              course := req.courseId, order := req.order,
              contentType := req.contentType, textContent := req.textContent,
              aiProcessing :=
                { status := AIStatus.pending, progress := 0, errorMessage := "",
                  processedAt := none,
                  voiceSettings := req.voiceSettings.getD defaultVoiceSettings },
              files := FileRefs.empty, cloudinaryUrls := CloudinaryUrls.empty,
              isPublished := false, publishedAt := none }]) := by
    unfold createLecture
    rw [if_neg (not_not_intro hval), if_neg (by simp), if_neg (by simp [hconf])]
    simp only [hct, htext, ne_eq, not_false_iff, and_self, if_true, ite_true]
  rw [hred]
  exact ⟨rfl, rfl, rfl, rfl⟩

/-- C6 witness: concrete create of the fixture ai-generated request
against the fixture collection with a failing hand-off. -/
theorem C6_witness :
    validLectureReq exCreateReq.title exCreateReq.description exCreateReq.textContent
      exCreateReq.order ∧
    exceptIsOk (createLecture exLectureDb 9 exCreateReq true false) = true ∧
    (resultOr (createLecture exLectureDb 9 exCreateReq true false)
        (exTextLecture, [])).1.aiProcessing.status = AIStatus.failed ∧
    (resultOr (createLecture exLectureDb 9 exCreateReq true false)
        (exTextLecture, [])).1.aiProcessing.errorMessage = "Failed to start AI processing" :=
  ⟨by decide,
    (C6_handoff_failure_contained exLectureDb 9 exCreateReq (by decide) rfl (by decide)
      (by decide)).1,
    (C6_handoff_failure_contained exLectureDb 9 exCreateReq (by decide) rfl (by decide)
      (by decide)).2.1,
    (C6_handoff_failure_contained exLectureDb 9 exCreateReq (by decide) rfl (by decide)
      (by decide)).2.2.1⟩

/-- Inversion of a successful createLecture: the new lecture carries
the requested course and order, it is appended to the collection, and
the order-conflict query was negative. -/
theorem createLecture_ok_inversion (db : List Lecture) (newId : Nat)
    (req : CreateLectureReq) (co ho : Bool) (l : Lecture) (db' : List Lecture)
    (h : createLecture db newId req co ho = Except.ok (l, db')) :
    l.course = req.courseId ∧ l.order = req.order ∧ db' = db ++ [l] ∧
    db.any (fun x => x.course == req.courseId && x.order == req.order) = false := by
  simp only [createLecture] at h
  split at h
  · simp at h
  · split at h
    · simp at h
    · split at h
      · simp at h
      · rename_i hconf
        simp only [Except.ok.injEq, Prod.mk.injEq] at h
        obtain ⟨h1, h2⟩ := h
        have hconf' : db.any (fun x => x.course == req.courseId && x.order == req.order) = false := by
          cases hb : db.any (fun x => x.course == req.courseId && x.order == req.order)
          · rfl
          · rw [hb] at hconf
            exact absurd rfl hconf
        refine ⟨?_, ?_, ?_, hconf'⟩
        · rw [← h1]
          split
          · rw [(handoffStep_frame _ _ _).2.2.2.1]
          · rfl
        · rw [← h1]
          split
          · rw [(handoffStep_frame _ _ _).2.2.2.2.1]
          · rfl
        · rw [← h2, ← h1]

/-- applyTextContent does not change the course reference. -/
theorem applyTextContent_course (req : UpdateLectureReq) (l1 : Lecture) :
    (applyTextContent req l1).course = l1.course := by
  unfold applyTextContent
  split <;> rfl

/-- applyTextContent does not change the order. -/
theorem applyTextContent_order (req : UpdateLectureReq) (l1 : Lecture) :
    (applyTextContent req l1).order = l1.order := by
  unfold applyTextContent
  split <;> rfl

/-- Inversion of a successful updateLecture: the target was found by
id, the updated lecture keeps the course and takes the requested
order, the collection is rewritten at the target id, and when the
order changed the collision query was negative. -/
theorem updateLecture_ok_inversion (db : List Lecture) (id : Nat)
    (req : UpdateLectureReq) (io ho : Bool) (l : Lecture) (db' : List Lecture)
    (h : updateLecture db id req io ho = Except.ok (l, db')) :
    ∃ x, db.find? (fun y => y.id == id) = some x ∧
      l.course = x.course ∧ l.order = req.order ∧
      db' = db.map (fun y => if y.id == id then l else y) ∧
      (req.order ≠ x.order →
        db.any (fun y => y.course == x.course && y.order == req.order && y.id != x.id) = false) := by
  simp only [updateLecture] at h
  split at h
  · simp at h
  · split at h
    · simp at h
    · rename_i x heq
      split at h
      · simp at h
      · split at h
        · simp at h
        · rename_i hio hcond
          split at h <;>
          · simp only [Except.ok.injEq, Prod.mk.injEq] at h
            obtain ⟨h1, h2⟩ := h
            refine ⟨x, heq, ?_, ?_, ?_, ?_⟩
            · rw [← h1]
              first
              | exact applyTextContent_course req (updateLectureFields req x)
              | (rw [(handoffStep_frame _ _ _).2.2.2.1];
                 exact applyTextContent_course req (updateLectureFields req x))
            · rw [← h1]
              first
              | exact applyTextContent_order req (updateLectureFields req x)
              | (rw [(handoffStep_frame _ _ _).2.2.2.2.1];
                 exact applyTextContent_order req (updateLectureFields req x))
            · rw [← h2, ← h1]
            · intro hne
              cases hb : db.any (fun y => y.course == x.course && y.order == req.order &&
                  y.id != x.id)
              · rfl
              · exact absurd ⟨hne, hb⟩ hcond

/-- C8: order values stay pairwise distinct within a course.
createLecture rejects a request whose order is already taken in the
course with the conflict response; updateLecture rejects a
reassignment whose new order collides with any other lecture of the
course; and both operations preserve pairwise distinctness of (course,
order) across the collection on success (for update, under the
document-store fact that ids identify documents). -/
theorem C8_order_uniqueness :
    (∀ (db : List Lecture) (newId : Nat) (req : CreateLectureReq) (ho : Bool),
      validLectureReq req.title req.description req.textContent req.order →
      db.any (fun l => l.course == req.courseId && l.order == req.order) = true →
      createLecture db newId req true ho =
        Except.error
          { status := 400,
            message := "A lecture with this order already exists in the course" }) ∧
    (∀ (db : List Lecture) (id : Nat) (req : UpdateLectureReq) (ho : Bool) (x : Lecture),
      validLectureReq req.title req.description req.textContent req.order →
      db.find? (fun y => y.id == id) = some x →
      req.order ≠ x.order →
      db.any (fun y => y.course == x.course && y.order == req.order && y.id != x.id) = true →
      updateLecture db id req true ho =
        Except.error
          { status := 400,
            message := "A lecture with this order already exists in the course" }) ∧
    (∀ (db : List Lecture) (newId : Nat) (req : CreateLectureReq) (co ho : Bool)
      (l : Lecture) (db' : List Lecture),
      createLecture db newId req co ho = Except.ok (l, db') →
      ordersDistinct db → ordersDistinct db') ∧
    (∀ (db : List Lecture) (id : Nat) (req : UpdateLectureReq) (io ho : Bool)
      (l : Lecture) (db' : List Lecture),
      updateLecture db id req io ho = Except.ok (l, db') →
      (∀ a ∈ db, ∀ b ∈ db, a.id = b.id → a = b) →
      ordersDistinct db → ordersDistinct db') := by
  refine ⟨?_, ?_, ?_, ?_⟩
  · intro db newId req ho hval hconf
    unfold createLecture
    rw [if_neg (not_not_intro hval), if_neg (by simp), if_pos hconf]
  · intro db id req ho x hval hfind hne hany
    unfold updateLecture
    rw [if_neg (not_not_intro hval)]
    simp only [hfind]
    rw [if_neg (by simp), if_pos ⟨hne, hany⟩]
  · intro db newId req co ho l db' h hdist
    obtain ⟨hc, ho2, hdb', hany⟩ := createLecture_ok_inversion db newId req co ho l db' h
    subst hdb'
    unfold ordersDistinct at hdist ⊢
    rw [List.pairwise_append]
    refine ⟨hdist, List.pairwise_singleton _ _, ?_⟩
    intro a ha b hb
    rw [List.mem_singleton] at hb
    subst hb
    intro hcab heq
    have hw : db.any (fun x => x.course == req.courseId && x.order == req.order) = true := by
      rw [List.any_eq_true]
      refine ⟨a, ha, ?_⟩
      have h1 : a.course = req.courseId := by rw [hcab, hc]
      have h2 : a.order = req.order := by rw [heq, ho2]
      simp [h1, h2]
    rw [hw] at hany
    simp at hany
  · intro db id req io ho l db' h huniq hdist
    obtain ⟨x, hfind, hc, ho2, hdb', himp⟩ :=
      updateLecture_ok_inversion db id req io ho l db' h
    have hxmem : x ∈ db := List.mem_of_find?_eq_some hfind
    have hxid : x.id = id := by simpa using List.find?_some hfind
    subst hdb'
    unfold ordersDistinct at hdist ⊢
    rw [List.pairwise_map]
    refine List.Pairwise.imp_of_mem (fun {a b} ha hb hR => ?_) hdist
    by_cases hA : a.id = id <;> by_cases hB : b.id = id
    · have hax : a = x := huniq a ha x hxmem (by rw [hA, hxid])
      have hbx : b = x := huniq b hb x hxmem (by rw [hB, hxid])
      subst hax
      subst hbx
      exact absurd rfl (hR rfl)
    · have hax : a = x := huniq a ha x hxmem (by rw [hA, hxid])
      subst hax
      rw [if_pos (by simp [hxid]), if_neg (by simp [hB])]
      rw [hc, ho2]
      intro hcb heq
      by_cases hro : req.order = a.order
      · exact hR hcb (by rw [← hro, heq])
      · have hany := himp hro
        have hw : db.any (fun y => y.course == a.course && y.order == req.order &&
            y.id != a.id) = true := by
          rw [List.any_eq_true]
          refine ⟨b, hb, ?_⟩
          have h1 : b.course = a.course := hcb.symm
          have h2 : b.order = req.order := heq.symm
          have h3 : b.id ≠ a.id := by rw [hxid]; exact hB
          simp [h1, h2, h3]
        rw [hw] at hany
        simp at hany
    · have hbx : b = x := huniq b hb x hxmem (by rw [hB, hxid])
      subst hbx
      rw [if_neg (by simp [hA]), if_pos (by simp [hxid])]
      rw [hc, ho2]
      intro hca heq
      by_cases hro : req.order = b.order
      · exact hR hca (heq.trans hro)
      · have hany := himp hro
        have hw : db.any (fun y => y.course == b.course && y.order == req.order &&
            y.id != b.id) = true := by
          rw [List.any_eq_true]
          refine ⟨a, ha, ?_⟩
          have h3 : a.id ≠ b.id := by rw [hxid]; exact hA
          simp [hca, heq, h3]
        rw [hw] at hany
        simp at hany
    · rw [if_neg (by simp [hA]), if_neg (by simp [hB])]
      exact hR

/-- C8 witness: creating a lecture with the already-taken order 1 of
the fixture course is rejected; updating the order-1 fixture lecture
to the taken order 2 is rejected. -/
theorem C8_witness :
    exLectureDb.any (fun l => l.course == exCreateReqOrder1.courseId &&
      l.order == exCreateReqOrder1.order) = true ∧
    createLecture exLectureDb 9 exCreateReqOrder1 true true =
      Except.error
        { status := 400,
          message := "A lecture with this order already exists in the course" } ∧
    exLectureDb.find? (fun y => y.id == 1) = some exAiLecture ∧
    exUpdateReqOrder2.order ≠ exAiLecture.order ∧
    updateLecture exLectureDb 1 exUpdateReqOrder2 true true =
      Except.error
        { status := 400,
          message := "A lecture with this order already exists in the course" } :=
  ⟨by decide,
    C8_order_uniqueness.1 exLectureDb 9 exCreateReqOrder1 true (by decide) (by decide),
    rfl, by decide,
    C8_order_uniqueness.2.1 exLectureDb 1 exUpdateReqOrder2 true exAiLecture (by decide)
      rfl (by decide) (by decide)⟩

/-- Counting lemma for the rating aggregate: replacing every
enrollment carrying the target id (each an unrated enrollment of the
course) by a rated enrollment of the course grows the rated-enrollment
count by the number of replaced documents. -/
theorem ratedEnrollments_map_length (db : List Enrollment) (eid : Nat)
    (e2 : Enrollment) (c : Nat)
    (hmatch : ∀ y ∈ db, y.id = eid → y.course = c ∧ y.rating.score = 0)
    (hc2 : e2.course = c) (hs2 : e2.rating.score ≠ 0) :
    (ratedEnrollments (db.map (fun y => if y.id == eid then e2 else y)) c).length =
      (ratedEnrollments db c).length + db.countP (fun y => y.id == eid) := by
  induction db with
  | nil => simp [ratedEnrollments]
  | cons y rest ih =>
    have ih' := ih (fun z hz hid => hmatch z (List.mem_cons_of_mem y hz) hid)
    unfold ratedEnrollments at ih' ⊢
    by_cases hy : y.id = eid
    · obtain ⟨hyc, hys⟩ := hmatch y (List.mem_cons_self y rest) hy
      simp only [List.map_cons, List.filter_cons, List.countP_cons, hy, hys, beq_self_eq_true,
        if_true, bne_self_eq_false, Bool.and_false, Bool.false_eq_true, if_false, hc2, hs2,
        ne_eq, not_false_iff, bne_iff_ne, Bool.and_true, Bool.and_eq_true, beq_iff_eq,
        List.length_cons] at ih' ⊢
      split
      · simp only [List.length_cons]
        omega
      · rename_i hcontra
        simp [hc2, hs2] at hcontra
    · simp only [List.map_cons, List.filter_cons, List.countP_cons,
        show (y.id == eid) = false by simp [hy], Bool.false_eq_true, if_false,
        bne_iff_ne, ne_eq, beq_iff_eq, Bool.and_eq_true] at ih' ⊢
      rw [if_neg hy]
      by_cases hpc : y.course = c ∧ ¬y.rating.score = 0
      · rw [if_pos hpc, if_pos hpc]
        simp only [List.length_cons]
        omega
      · rw [if_neg hpc, if_neg hpc]
        omega

/-- C7: rating is write-once per enrollment — a second rating call is
rejected with the already-rated response and the collection and course
aggregate are left unchanged — and a successful rating stores the
rating on the target alone, after which the course aggregate holds
count = number of rated enrollments of the course (one more than
before: exactly one contribution per enrollment) and an average,
kept in tenths, equal to round (mean of all stored scores * 10); the
stored JS number is that value divided by 10. -/
theorem C7_rating_write_once (now : Nat) (db : List Enrollment) (oldCr : CourseRating)
    (studentId eid score : Nat) (review : String) (e : Enrollment)
    (hscore : 1 ≤ score ∧ score ≤ 5 ∧ review.length ≤ 500)
    (hfind : db.find? (fun x => x.id == eid && x.student == studentId) = some e)
    (huniq : ∀ y ∈ db, y.id = eid → y = e)
    (hcnt : db.countP (fun y => y.id == eid) = 1) :
    (e.rating.score ≠ 0 →
      rateCourse now db oldCr studentId eid score review =
        (Except.error { status := 400, message := "You have already rated this course" },
          db, oldCr)) ∧
    (e.rating.score = 0 →
      rateCourse now db oldCr studentId eid score review =
        (Except.ok { score := score, review := review, reviewedAt := some now },
          db.map (fun y => if y.id == eid then
            { e with rating := { score := score, review := review, reviewedAt := some now } }
            else y),
          recomputeCourseRating
            (db.map (fun y => if y.id == eid then
              { e with rating := { score := score, review := review, reviewedAt := some now } }
              else y))
            e.course oldCr) ∧
      (ratedEnrollments
          (db.map (fun y => if y.id == eid then
            { e with rating := { score := score, review := review, reviewedAt := some now } }
            else y))
          e.course).length =
        (ratedEnrollments db e.course).length + 1 ∧
      ((recomputeCourseRating
          (db.map (fun y => if y.id == eid then
            { e with rating := { score := score, review := review, reviewedAt := some now } }
            else y))
          e.course oldCr).count =
        (ratedEnrollments
          (db.map (fun y => if y.id == eid then
            { e with rating := { score := score, review := review, reviewedAt := some now } }
            else y))
          e.course).length) ∧
      (((recomputeCourseRating
          (db.map (fun y => if y.id == eid then
            { e with rating := { score := score, review := review, reviewedAt := some now } }
            else y))
          e.course oldCr).averageTenths : ℤ) =
        ⌊((((ratedEnrollments
              (db.map (fun y => if y.id == eid then
                { e with rating := { score := score, review := review, reviewedAt := some now } }
                else y))
              e.course).foldl (fun sum e => sum + e.rating.score) 0 : ℕ) : ℚ) /
            ((ratedEnrollments
              (db.map (fun y => if y.id == eid then
                { e with rating := { score := score, review := review, reviewedAt := some now } }
                else y))
              e.course).length : ℚ)) * 10 + 1 / 2⌋)) := by
  constructor
  · intro hne
    unfold rateCourse
    rw [if_neg (not_not_intro hscore)]
    simp only [hfind]
    rw [if_pos hne]
  · intro h0
    have hlen : (ratedEnrollments
        (db.map (fun y => if y.id == eid then
          { e with rating := { score := score, review := review, reviewedAt := some now } }
          else y))
        e.course).length =
        (ratedEnrollments db e.course).length + 1 := by
      rw [ratedEnrollments_map_length db eid
        { e with rating := { score := score, review := review, reviewedAt := some now } }
        e.course
        (fun y hy hid => by
          have hye : y = e := huniq y hy hid
          subst hye
          exact ⟨rfl, h0⟩)
        rfl
        (by
          show score ≠ 0
          omega),
        hcnt]
    have hmain : rateCourse now db oldCr studentId eid score review =
        (Except.ok { score := score, review := review, reviewedAt := some now },
          db.map (fun y => if y.id == eid then
            { e with rating := { score := score, review := review, reviewedAt := some now } }
            else y),
          recomputeCourseRating
            (db.map (fun y => if y.id == eid then
              { e with rating := { score := score, review := review, reviewedAt := some now } }
              else y))
            e.course oldCr) := by
      unfold rateCourse
      rw [if_neg (not_not_intro hscore)]
      simp only [hfind]
      rw [if_neg (not_not_intro h0)]
    have hpos : 0 < (ratedEnrollments
        (db.map (fun y => if y.id == eid then
          { e with rating := { score := score, review := review, reviewedAt := some now } }
          else y))
        e.course).length := by
      rw [hlen]
      omega
    refine ⟨hmain, hlen, ?_, ?_⟩
    · unfold recomputeCourseRating
      rw [if_pos hpos]
    · unfold recomputeCourseRating
      rw [if_pos hpos]
      simp only []
      rw [jsRoundDiv_eq_floor _ _ hpos]
      congr 1
      push_cast
      ring

/-- C7 witness: the already-rated fixture enrollment is rejected with
nothing changed; rating the unrated fixture enrollment adds exactly
one rated enrollment to the course aggregate count. -/
theorem C7_witness :
    (rateCourse 90 exEnrDb { averageTenths := 0, count := 0 } 33 23 4 "again" =
      (Except.error { status := 400, message := "You have already rated this course" },
        exEnrDb, { averageTenths := 0, count := 0 })) ∧
    (ratedEnrollments
        (exEnrDb.map (fun y => if y.id == 21 then
          { exEnrActive with rating := { score := 4, review := "nice", reviewedAt := some 90 } }
          else y)) exEnrActive.course).length =
      (ratedEnrollments exEnrDb exEnrActive.course).length + 1 :=
  ⟨(C7_rating_write_once 90 exEnrDb { averageTenths := 0, count := 0 } 33 23 4 "again"
      exEnrRated (by decide) rfl (by decide) (by decide)).1 (by decide),
    ((C7_rating_write_once 90 exEnrDb { averageTenths := 0, count := 0 } 31 21 4 "nice"
      exEnrActive (by decide) rfl (by decide) (by decide)).2 rfl).2.1⟩
